import Mathlib

/-!
Shallow embedding of the buildbot release-status dashboard
(`release_dashboard.py`): per-builder problem classification, branch/tier
ordering, disconnection severity, and the single-slot result cache.

Conventions:
* Raw Buildbot data that the code reads through `__getitem__` becomes
  structure fields (`results`, `started_at`, `tags`, `connected_to`,
  `configured_on`); the lists the code fetches are taken as inputs.
* Python string operations that the classifier relies on
  (`str.startswith`, slicing, `int(...)`, `str.lower`, `str.title`)
  are modelled character-by-character on `String.data`, restricted to
  ASCII and canonical numerals (Python's `int` additionally accepts
  surrounding whitespace and underscore separators; such tags are
  outside this model).
* Timestamps and the cache clock are integer seconds; `datetime`
  arithmetic is exact, and all boundary cases in the claims are at
  whole-second granularity.
-/

/-! ### Module-level constants (from the top of `release_dashboard.py`) -/

def N_BUILDS : Nat := 200

def FAILED_BUILD_STATUS : Nat := 2

def WARNING_BUILD_STATUS : Nat := 1

def SUCCESS_BUILD_STATUS : Nat := 0

def MIN_CONSECUTIVE_FAILURES : Nat := 2

/-- Cache result for 6 minutes (`CACHE_DURATION = 6 * 60`), in seconds. -/
def CACHE_DURATION : Int := 6 * 60

/-! ### Python string helpers -/

/-- Python `s.startswith(p)` (character-level). -/
def pyStartsWith (s p : String) : Bool :=
  p.data.isPrefixOf s.data

/-- Python `s[n:]` (character slicing). -/
def pySlice (s : String) (n : Nat) : String :=
  String.mk (s.data.drop n)

/-- Digit-run accumulator for `pyInt?`: `none` means no digit seen yet or a
non-digit character encountered (Python `int` raises `ValueError`). -/
def digitsVal : List Char → Option Nat → Option Nat
  | [], acc => acc
  | c :: cs, acc =>
    if c.isDigit then digitsVal cs (some ((acc.getD 0) * 10 + (c.toNat - 48)))
    else none

/-- Python `int(s)` for canonical numerals: an optional sign followed by a
nonempty run of decimal digits; `none` where `int()` raises `ValueError`. -/
def pyInt? (s : String) : Option Int :=
  match s.data with
  | '-' :: rest => (digitsVal rest none).map (fun n => -(n : Int))
  | '+' :: rest => (digitsVal rest none).map (fun n => (n : Int))
  | l => (digitsVal l none).map (fun n => (n : Int))

/-- Python `s.lower()` (ASCII). -/
def pyLower (s : String) : String :=
  String.mk (s.data.map Char.toLower)

/-- Helper for `pyTitle`: the boolean records whether the previous character
was alphabetic (i.e. whether we are inside a word). -/
def titleMap : List Char → Bool → List Char
  | [], _ => []
  | c :: cs, prevAlpha =>
    (if c.isAlpha then (if prevAlpha then c.toLower else c.toUpper) else c)
      :: titleMap cs c.isAlpha

/-- Python `s.title()` (ASCII): the first letter of every alphabetic run is
uppercased, the rest lowercased. -/
def pyTitle (s : String) : String :=
  String.mk (titleMap s.data false)

/-! ### Raw data: builds, workers, builders -/

/-- A completed build as fetched from
`("builders", builderid, "builds")` (already filtered to `complete`).
`started_at` is the raw `"started_at"` timestamp, `none` for Python `None`.
Python treats both `None` and `0` as falsy, which `Build.age` reflects. -/
structure Build where
  results : Nat
  started_at : Option Int := none
deriving DecidableEq, Repr

/-- A worker from `/workers`: `connected_to` is the list of master ids the
worker is connected to (Python truthiness = non-emptiness), `configured_on`
the builder ids it serves. -/
structure Worker where
  connected_to : List Nat := []
  configured_on : List Nat := []
deriving DecidableEq, Repr

/-- A builder from `/builders` together with its fetched build history
(most-recent first, the order `Builder.builds` returns). -/
structure Builder where
  builderid : Nat
  name : String := ""
  tags : List String := []
  builds : List Build := []
deriving DecidableEq, Repr

/-- `Builder.iter_interesting_builds`: builds whose result is success,
warning or failure, in the fetched most-recent-first order. -/
def Builder.iter_interesting_builds (self : Builder) : List Build :=
  self.builds.filter (fun build =>
    build.results == SUCCESS_BUILD_STATUS ||
    build.results == WARNING_BUILD_STATUS ||
    build.results == FAILED_BUILD_STATUS)

/-- `Builder.connected_workers`: workers that are connected and configured on
this builder.  (The source yields a worker once per matching `configured_on`
entry and then sorts; only emptiness of this list is ever consumed by the
classifier, which the filter preserves.) -/
def Builder.connected_workers (self : Builder) (workers : List Worker) :
    List Worker :=
  workers.filter (fun worker =>
    !worker.connected_to.isEmpty &&
    worker.configured_on.contains self.builderid)

/-! ### Problems and the classifier -/

/-- The problem records yielded by `Builder.problems`
(`NoProblem` is a dummy used only by `Branch.featured_problem`). -/
inductive Problem where
  | NoBuilds (builder : Builder)
  | BuildWarning (build : Build)
  | BuildFailure (latest_build : Build) (first_failing_build : Option Build)
  | BuilderDisconnected (builder : Builder)
  | NoProblem
deriving DecidableEq, Repr

/-- Attach 0-based positions to a list (position `n` onward).  Python compares
`latest_build != first_failing_build` by object identity; in the cached
interesting-build list the object identical to `latest_build` is exactly the
element at position 0, so identity is modelled by position equality. -/
def withIdx : Nat → List Build → List (Nat × Build)
  | _, [] => []
  | n, b :: bs => (n, b) :: withIdx (n + 1) bs

/-- The failure-streak loop inside `Builder.problems`: walk the interesting
builds (with their positions), remembering the last failing build seen
(`first_failing`).  On the first success: yield `BuildFailure` only when
`first_failing` is not the latest build (position 0), then stop.  If the list
is exhausted without a success (`for ... else`), yield `BuildFailure` with
just the latest build. -/
def failScan (latest_build : Build) :
    List (Nat × Build) → Option (Nat × Build) → List Problem
  | [], _ => [Problem.BuildFailure latest_build none]
  | (i, build) :: rest, first_failing =>
    if build.results = FAILED_BUILD_STATUS then
      failScan latest_build rest (some (i, build))
    else if build.results = SUCCESS_BUILD_STATUS then
      if first_failing.map Prod.fst ≠ some 0 then
        [Problem.BuildFailure latest_build (first_failing.map Prod.snd)]
      else []
    else
      failScan latest_build rest first_failing

/-- `Builder.problems`, as the sequence of problems the generator yields.
(The source wraps this in `cached_sorted_property`, which sorts the yielded
problems by severity/description — a permutation; the properties verified
here are membership properties, which sorting preserves.)

Mirrors the source exactly: if there is no interesting build, yield
`NoBuilds` and `return` (so the disconnection check is skipped); otherwise
classify the latest build, and afterwards yield `BuilderDisconnected` when
no connected worker serves the builder. -/
def Builder.problems (self : Builder) (workers : List Worker) : List Problem :=
  match self.iter_interesting_builds with
  | [] => [Problem.NoBuilds self]
  | latest_build :: _ =>
    (if latest_build.results = WARNING_BUILD_STATUS then
      [Problem.BuildWarning latest_build]
    else if latest_build.results = FAILED_BUILD_STATUS then
      failScan latest_build (withIdx 0 self.iter_interesting_builds) none
    else [])
    ++
    (if (self.connected_workers workers).isEmpty then
      [Problem.BuilderDisconnected self]
    else [])

/-! ### Branches and tiers

A `Branch`/`Tier` instance is determined by its `name` (the tag it was
deduplicated under), so both are modelled by that string. -/

/-- `BBState.get_branch`: the first tag starting with `"3."`, else the
`no-branch` sentinel. -/
def get_branch (tags : List String) : String :=
  match tags.find? (fun tag => pyStartsWith tag "3.") with
  | some tag => tag
  | none => "no-branch"

/-- `BBState.get_tier`: the first tag starting with `"tier-"`, else the
`no-tier` sentinel. -/
def get_tier (tags : List String) : String :=
  match tags.find? (fun tag => pyStartsWith tag "tier-") with
  | some tag => tag
  | none => "no-tier"

/-- `Branch.sort_key`: `(1, minor)` for a numeric minor version, `(2, 99)`
for a `3.`-tag whose suffix is not an integer, `(0, 0)` otherwise
(in particular for the `no-branch` sentinel). -/
def Branch.sort_key (name : String) : Nat × Int :=
  if pyStartsWith name "3." then
    match pyInt? (pySlice name 2) with
    | some n => (1, n)
    | none => (2, 99)
  else (0, 0)

/-- Python tuple comparison of branch sort keys (lexicographic). -/
def branchKeyLt (a b : Nat × Int) : Bool :=
  a.1 < b.1 || (a.1 == b.1 && a.2 < b.2)

/-- Stable descending insertion of a branch name into a sorted list,
by `Branch.sort_key` (`Branch.__lt__` compares sort keys). -/
def insertBranchDesc (x : String) : List String → List String
  | [] => [x]
  | y :: ys =>
    if branchKeyLt (Branch.sort_key x) (Branch.sort_key y) then
      y :: insertBranchDesc x ys
    else x :: y :: ys

/-- `BBState.branches` ordering: `sorted(..., reverse=True)` — a stable
descending sort of the registered branch names by sort key. -/
def sortBranchesDesc : List String → List String
  | [] => []
  | x :: xs => insertBranchDesc x (sortBranchesDesc xs)

/-- `Tier.value`: the integer after `"tier-"`, with 99 for an unparsable
suffix and for the `no-tier` sentinel.  `Tier.sort_key` is this value. -/
def Tier.value (name : String) : Int :=
  if pyStartsWith name "tier-" then
    match pyInt? (pySlice name 5) with
    | some n => n
    | none => 99
  else 99

/-- `Tier.__lt__` (via `_BranchTierBase.__lt__` on `sort_key = value`). -/
def tierLt (self other : String) : Bool :=
  Tier.value self < Tier.value other

/-- `_BranchTierBase.__eq__` when the other operand is not a string:
the sort keys are compared, not the names. -/
def branch_eq (self other : String) : Bool :=
  Branch.sort_key self == Branch.sort_key other

/-- `Branch.problems` (the extension loop, before the final sort):
for each builder whose `branch == self` (sort-key comparison), append its
problems. -/
def Branch.problems (workers : List Worker) (self : String) :
    List Builder → List Problem
  | [] => []
  | builder :: rest =>
    (if branch_eq (get_branch builder.tags) self then
      builder.problems workers
    else [])
    ++ Branch.problems workers self rest

/-! ### Severity model

`Severity` is an `IntEnum` whose members are numbered 1.. in declaration
order by `enum.auto()`. -/

namespace Severity

def NO_PROBLEM : Nat := 1

def no_builds_yet : Nat := 2

def disconnected_unstable_builder : Nat := 3

def unstable_builder_failure : Nat := 4

def TRIVIAL : Nat := 5

def build_warnings : Nat := 6

def disconnected_stable_builder : Nat := 7

def disconnected_blocking_builder : Nat := 8

def CONCERNING : Nat := 9

def nonblocking_failure : Nat := 10

def BLOCKING : Nat := 11

def release_blocking_failure : Nat := 12

end Severity

/-! ### Disconnection severity (`BuilderDisconnected.get_severity_and_description`) -/

/-- `Builder.is_stable`: `'stable' in self["tags"]`. -/
def Builder.is_stable (self : Builder) : Bool :=
  self.tags.contains "stable"

/-- `Builder.is_release_blocking`: `self.tier.value in (1, 2)`. -/
def Builder.is_release_blocking (self : Builder) : Bool :=
  Tier.value (get_tier self.tags) == 1 || Tier.value (get_tier self.tags) == 2

/-- `Build.age` in seconds relative to the state's `now`: `None` when the raw
`started_at` is falsy (`None` or `0`), else `now - started_at`. -/
def Build.age (self : Build) (now : Int) : Option Int :=
  match self.started_at with
  | none => none
  | some t => if t = 0 then none else some (now - t)

/-- The recency test `build.age and build.age < datetime.timedelta(hours=6)`:
the age exists, is truthy (a zero timedelta is falsy), and is under 6 hours
(21600 seconds). -/
def Build.age_recent (self : Build) (now : Int) : Bool :=
  match self.age now with
  | none => false
  | some a => a != 0 && a < (21600 : Int)

/-- The severity/description pair computed before the recency adjustment
in `BuilderDisconnected.get_severity_and_description`. -/
def disconnectedBase (builder : Builder) : Nat × String :=
  if !builder.is_stable then
    (Severity.disconnected_unstable_builder, "Disconnected unstable builder")
  else
    let description :=
      "Disconnected " ++ pyTitle (get_tier builder.tags) ++ " stable builder"
    if builder.is_release_blocking then
      (Severity.disconnected_blocking_builder, description)
    else
      (Severity.disconnected_stable_builder, description)

/-- `BuilderDisconnected.get_severity_and_description`.  The source's
`for build in ...: if <recent>: ...; break` examines only the first
interesting build (the `break` sits at loop level).  The surrounding
`try/except` re-raises as `SystemError`; in this pure model no branch
raises, so the handler is unreachable.  Note the two demotion `if`s are
sequential (not `elif`), comparing against `BLOCKING`/`CONCERNING`. -/
def BuilderDisconnected.get_severity_and_description
    (builder : Builder) (now : Int) : Nat × String :=
  let sd := disconnectedBase builder
  match builder.iter_interesting_builds with
  | [] => sd
  | build :: _ =>
    if build.age_recent now then
      let description := sd.2 ++ " (with recent build)"
      let severity := if Severity.BLOCKING ≤ sd.1 then Severity.CONCERNING else sd.1
      let severity := if Severity.CONCERNING ≤ severity then Severity.TRIVIAL else severity
      (severity, description)
    else sd

/-- Whether the loop in `get_severity_and_description` takes its recency
branch: there is an interesting build and the most recent one is recent. -/
def Builder.has_recent_build (self : Builder) (now : Int) : Bool :=
  match self.iter_interesting_builds with
  | [] => false
  | build :: _ => build.age_recent now

/-! ### The result cache (`ReleaseStatusApp.main`) -/

/-- `force_refresh`: `request.args.get("refresh", "").lower() in {"1", "yes", "true"}`. -/
def parse_force_refresh (param : String) : Bool :=
  pyLower param == "1" || pyLower param == "yes" || pyLower param == "true"

/-- Observable outcome of one request to `main`: the response was served
from the cache, freshly computed, or the recomputation raised; each
constructor records the cache slot after the request. -/
inductive MainResult (ε α : Type) where
  | cached (result : α) (cache : Option (α × Int))
  | computed (result : α) (cache : Option (α × Int))
  | failed (err : ε) (cache : Option (α × Int))
deriving DecidableEq, Repr

/-- The cache slot (`self.cache`) after the request. -/
def MainResult.cacheOut {ε α : Type} : MainResult ε α → Option (α × Int)
  | .cached _ cache => cache
  | .computed _ cache => cache
  | .failed _ cache => cache

/-- `ReleaseStatusApp.main`: serve from the cache slot when it is non-empty,
no refresh was forced, and `now <= deadline`; otherwise run
`get_release_status` (modelled as the `compute` argument — an exception
propagates before the slot is assigned) and store the result with deadline
`now + CACHE_DURATION`.  `now` models `time.monotonic()` in seconds. -/
def ReleaseStatusApp.main {ε α : Type} (cache : Option (α × Int))
    (refreshParam : String) (now : Int) (compute : Except ε α) :
    MainResult ε α :=
  let force_refresh := parse_force_refresh refreshParam
  let recompute : MainResult ε α :=
    match compute with
    | .error e => .failed e cache
    | .ok result => .computed result (some (result, now + CACHE_DURATION))
  match cache with
  | some (result, deadline) =>
    if force_refresh = false then
      if now ≤ deadline then .cached result (some (result, deadline))
      else recompute
    else recompute
  | none => recompute

/-! ### Concrete fixtures -/

/-- A successful build. -/
def buildS : Build := { results := 0, started_at := some 90 }

/-- A build with warnings. -/
def buildW : Build := { results := 1, started_at := some 95 }

/-- The most recent failed build in the fixtures. -/
def buildF : Build := { results := 2, started_at := some 100 }

/-- An older failed build. -/
def buildFb : Build := { results := 2, started_at := some 85 }

/-- The oldest failed build in the fixtures. -/
def buildFc : Build := { results := 2, started_at := some 80 }

/-- A worker connected to a master and configured on builder 7. -/
def workerConn : Worker := { connected_to := [1], configured_on := [7] }

/-- History `[F, S, S]` (most-recent first). -/
def builderFSS : Builder :=
  { builderid := 7, name := "fss", tags := ["3.x", "tier-1", "stable"],
    builds := [buildF, buildS, buildS] }

/-- History `[F, F, F]`. -/
def builderFFF : Builder :=
  { builderid := 7, name := "fff", tags := ["3.x", "tier-1", "stable"],
    builds := [buildF, buildFb, buildFc] }

/-- History `[F, W, F, S]`. -/
def builderFWFS : Builder :=
  { builderid := 7, name := "fwfs", tags := ["3.x", "tier-1", "stable"],
    builds := [buildF, buildW, buildFb, buildS] }

/-- A builder with no builds at all. -/
def builderEmpty : Builder :=
  { builderid := 7, name := "empty", tags := ["3.x", "tier-1", "stable"],
    builds := [] }

/-! ### Helper lemmas for the classifier -/

/-- Elements of `withIdx n l` project to elements of `l`. -/
theorem snd_mem_of_mem_withIdx {p : Nat × Build} :
    ∀ {n : Nat} {l : List Build}, p ∈ withIdx n l → p.2 ∈ l := by
  intro n l
  induction l generalizing n with
  | nil => intro h; simp [withIdx] at h
  | cons b bs ih =>
    intro h
    rw [withIdx] at h
    rcases List.mem_cons.mp h with h | h
    · subst h; exact List.mem_cons_self _ _
    · exact List.mem_cons_of_mem _ (ih h)

/-- When every scanned build is a failure, the streak loop runs off the end
of the history and the `for ... else` arm fires: a lone
`BuildFailure latest none` regardless of the accumulator. -/
theorem failScan_all_failed (latest : Build) :
    ∀ (l : List (Nat × Build)) (ff : Option (Nat × Build)),
      (∀ p ∈ l, (p.2).results = FAILED_BUILD_STATUS) →
      failScan latest l ff = [Problem.BuildFailure latest none] := by
  intro l
  induction l with
  | nil => intro ff _; rfl
  | cons p rest ih =>
    intro ff h
    obtain ⟨i, b⟩ := p
    have hb : b.results = FAILED_BUILD_STATUS :=
      h (i, b) (List.mem_cons_self _ _)
    rw [failScan, if_pos hb]
    exact ih _ (fun q hq => h q (List.mem_cons_of_mem _ hq))

/-! ### C1 — a failing streak of length 1 followed by a success -/

/-- C1 counterexample: the builder with history `[F, S, S]` (and a connected
worker) yields no problem at all — in particular no `BuildFailure`
referencing the latest build. -/
theorem single_failure_then_success_yields_nothing :
    builderFSS.iter_interesting_builds = [buildF, buildS, buildS] ∧
    buildF.results = FAILED_BUILD_STATUS ∧
    buildS.results = SUCCESS_BUILD_STATUS ∧
    builderFSS.problems [workerConn] = [] := by decide

/-- C1 amended: when the interesting-build sequence starts with a failure
followed immediately by a success (failing streak of length 1), the
classifier emits no `BuildFailure` at all: the `latest != first_failing`
identity guard suppresses the report. -/
theorem single_failure_streak_emits_no_BuildFailure
    (workers : List Worker) (builder : Builder) (f s : Build)
    (rest : List Build)
    (hseq : builder.iter_interesting_builds = f :: s :: rest)
    (hf : f.results = FAILED_BUILD_STATUS)
    (hs : s.results = SUCCESS_BUILD_STATUS) :
    ∀ (lb : Build) (fb : Option Build),
      Problem.BuildFailure lb fb ∉ builder.problems workers := by
  intro lb fb hmem
  rw [Builder.problems, hseq] at hmem
  simp only [FAILED_BUILD_STATUS, WARNING_BUILD_STATUS, SUCCESS_BUILD_STATUS]
    at hf hs
  simp only [FAILED_BUILD_STATUS, WARNING_BUILD_STATUS, SUCCESS_BUILD_STATUS,
    hf, hs, withIdx, failScan] at hmem
  simp at hmem

/-- Witness for `single_failure_streak_emits_no_BuildFailure` on the
`[F, S, S]` fixture. -/
theorem single_failure_streak_witness :
    Problem.BuildFailure buildF none ∉ builderFSS.problems [workerConn] :=
  single_failure_streak_emits_no_BuildFailure [workerConn] builderFSS buildF
    buildS [buildS] (by decide) (by decide) (by decide) buildF none

/-! ### C4 — a history that is failures all the way down -/

/-- C4 counterexample: for the `[F, F, F]` history the `for ... else` arm
yields `BuildFailure` with only the latest build — no breaking build is
attached, contrary to the claimed `BuildFailure(latest=F0, breaking=F2)`. -/
theorem all_failures_counterexample :
    builderFFF.iter_interesting_builds = [buildF, buildFb, buildFc] ∧
    (∀ b ∈ builderFFF.iter_interesting_builds,
      b.results = FAILED_BUILD_STATUS) ∧
    builderFFF.problems [workerConn] = [Problem.BuildFailure buildF none] := by
  decide

/-- C4 amended: when the interesting-build sequence is non-empty and consists
entirely of failures, the classifier emits `BuildFailure` carrying the latest
build and no breaking build (the streak origin is dropped by the
`for ... else` arm). -/
theorem all_failures_emit_latest_only
    (workers : List Worker) (builder : Builder) (f : Build)
    (rest : List Build)
    (hseq : builder.iter_interesting_builds = f :: rest)
    (hall : ∀ b ∈ builder.iter_interesting_builds,
      b.results = FAILED_BUILD_STATUS) :
    Problem.BuildFailure f none ∈ builder.problems workers ∧
    ∀ (lb fb : Build),
      Problem.BuildFailure lb (some fb) ∉ builder.problems workers := by
  have hf : f.results = FAILED_BUILD_STATUS := by
    refine hall f ?_
    rw [hseq]
    exact List.mem_cons_self _ _
  have hscan : failScan f (withIdx 0 builder.iter_interesting_builds) none =
      [Problem.BuildFailure f none] :=
    failScan_all_failed f _ _ (fun p hp => hall p.2 (snd_mem_of_mem_withIdx hp))
  rw [hseq] at hscan
  simp only [FAILED_BUILD_STATUS, WARNING_BUILD_STATUS,
    SUCCESS_BUILD_STATUS] at hf
  constructor
  · rw [Builder.problems, hseq]
    simp [FAILED_BUILD_STATUS, WARNING_BUILD_STATUS, SUCCESS_BUILD_STATUS,
      hf, hscan]
  · intro lb fb hmem
    rw [Builder.problems, hseq] at hmem
    simp [FAILED_BUILD_STATUS, WARNING_BUILD_STATUS, SUCCESS_BUILD_STATUS,
      hf, hscan] at hmem

/-- Witness for `all_failures_emit_latest_only` on the `[F, F, F]` fixture. -/
theorem all_failures_witness :
    Problem.BuildFailure buildF none ∈ builderFFF.problems [workerConn] ∧
    Problem.BuildFailure buildF (some buildFc) ∉
      builderFFF.problems [workerConn] :=
  ⟨(all_failures_emit_latest_only [workerConn] builderFFF buildF
      [buildFb, buildFc] (by decide) (by decide)).1,
   (all_failures_emit_latest_only [workerConn] builderFFF buildF
      [buildFb, buildFc] (by decide) (by decide)).2 buildF buildFc⟩

/-! ### C5 — disconnection vs. the `NoBuilds` early return -/

/-- C5 counterexample: a builder with no connected workers and an empty
interesting-build sequence yields only `NoBuilds` — the generator `return`s
before the disconnection check, so no `BuilderDisconnected` accompanies it. -/
theorem no_builds_disconnected_counterexample :
    builderEmpty.connected_workers [] = [] ∧
    builderEmpty.problems [] = [Problem.NoBuilds builderEmpty] := by decide

/-- C5 amended: for a builder with no connected workers, `BuilderDisconnected`
is emitted independently of the build classification only when the
interesting-build sequence is non-empty; when it is empty, the classifier
yields exactly `NoBuilds` and returns, skipping the disconnection check. -/
theorem disconnected_emitted_iff_history_nonempty
    (workers : List Worker) (builder : Builder)
    (hdisc : builder.connected_workers workers = []) :
    (builder.iter_interesting_builds = [] →
      builder.problems workers = [Problem.NoBuilds builder]) ∧
    (builder.iter_interesting_builds ≠ [] →
      Problem.BuilderDisconnected builder ∈ builder.problems workers) := by
  constructor
  · intro h
    rw [Builder.problems, h]
  · intro h
    rcases hne : builder.iter_interesting_builds with _ | ⟨b, tl⟩
    · exact absurd hne h
    · rw [Builder.problems, hne]
      refine List.mem_append_right _ ?_
      simp [hdisc]

/-- Witness for `disconnected_emitted_iff_history_nonempty`: the empty-history
fixture yields only `NoBuilds`; the `[F, W, F, S]` fixture with no workers
does carry `BuilderDisconnected`. -/
theorem disconnected_emitted_witness :
    builderEmpty.problems [] = [Problem.NoBuilds builderEmpty] ∧
    Problem.BuilderDisconnected builderFWFS ∈ builderFWFS.problems [] :=
  ⟨(disconnected_emitted_iff_history_nonempty [] builderEmpty rfl).1 rfl,
   (disconnected_emitted_iff_history_nonempty [] builderFWFS rfl).2
     (by decide)⟩

/-! ### C10 — warning builds during the failure-streak scan -/

/-- C10: a warning build neither terminates the streak scan nor updates the
streak origin (the loop body matches only failure and success results), and
on the `[F, W, F, S]` fixture the reported breaking build is the older
failure on the far side of the warning. -/
theorem warning_skipped_in_streak_scan :
    (∀ (latest w : Build) (i : Nat) (rest : List (Nat × Build))
        (ff : Option (Nat × Build)),
      w.results = WARNING_BUILD_STATUS →
      failScan latest ((i, w) :: rest) ff = failScan latest rest ff) ∧
    builderFWFS.problems [workerConn] =
      [Problem.BuildFailure buildF (some buildFb)] := by
  constructor
  · intro latest w i rest ff hw
    rw [failScan, hw]
    simp [WARNING_BUILD_STATUS, FAILED_BUILD_STATUS, SUCCESS_BUILD_STATUS]
  · decide

/-- Witness for `warning_skipped_in_streak_scan`: one concrete scan step over
a warning build. -/
theorem warning_skipped_witness :
    failScan buildF [(1, buildW)] none = failScan buildF [] none :=
  warning_skipped_in_streak_scan.1 buildF buildW 1 [] none (by decide)

/-! ### C3 — descending branch order -/

/-- C3 counterexample: the descending branch sort does not put `3.12` first —
a `3.`-tag with a non-numeric suffix gets sort key `(2, 99)`, above every
numeric `(1, n)`. -/
theorem branch_sort_counterexample :
    sortBranchesDesc ["3.12", "3.9", "3.x", "no-branch"] ≠
      ["3.12", "3.9", "3.x", "no-branch"] := by decide

/-- C3 amended: the tags sort descending as `3.x, 3.12, 3.9, no-branch`.
Numeric minor versions compare as integers (12 above 9), but branches with
non-numeric suffixes rank above all numeric ones, and the `no-branch`
sentinel ranks below everything. -/
theorem branch_sort_order :
    sortBranchesDesc ["3.12", "3.9", "3.x", "no-branch"] =
      ["3.x", "3.12", "3.9", "no-branch"] ∧
    Branch.sort_key "3.12" = (1, 12) ∧
    Branch.sort_key "3.9" = (1, 9) ∧
    Branch.sort_key "3.x" = (2, 99) ∧
    Branch.sort_key "no-branch" = (0, 0) := by decide

/-! ### C8 — the `no-tier` sentinel in the tier order -/

/-- C8 counterexample: `tier-100` has value 100, so the `no-tier` sentinel
(value 99) sorts *before* it, not after. -/
theorem no_tier_sorts_last_counterexample :
    pyStartsWith "tier-100" "tier-" = true ∧
    pyInt? (pySlice "tier-100" 5) = some 100 ∧
    tierLt "tier-100" "no-tier" = false ∧
    tierLt "no-tier" "tier-100" = true := by decide

/-- C8 amended: a tier tag `tier-N` with integer value `N` sorts before the
`no-tier` sentinel exactly when `N < 99` (the sentinel's value). -/
theorem no_tier_after_small_tiers (s : String) (n : Int)
    (hpre : pyStartsWith s "tier-" = true)
    (hval : pyInt? (pySlice s 5) = some n) :
    tierLt s "no-tier" = true ↔ n < 99 := by
  have hs : Tier.value s = n := by
    rw [Tier.value, if_pos hpre, hval]
  have hn : Tier.value "no-tier" = 99 := by decide
  rw [tierLt, hs, hn]
  simp

/-- Witness for `no_tier_after_small_tiers` at `tier-3`. -/
theorem no_tier_after_small_tiers_witness :
    pyStartsWith "tier-3" "tier-" = true ∧
    pyInt? (pySlice "tier-3" 5) = some 3 ∧
    tierLt "tier-3" "no-tier" = true := by
  refine ⟨by decide, by decide, ?_⟩
  exact (no_tier_after_small_tiers "tier-3" 3 (by decide) (by decide)).mpr
    (by decide)

/-! ### C9 — branch equality by sort key, and its effect on `Branch.problems` -/

/-- C9: two branches whose tags both start with `3.` followed by a
non-integer suffix share the sort key `(2, 99)` and therefore compare equal
under `_BranchTierBase.__eq__`; consequently `Branch.problems`, which tests
`builder.branch == self`, absorbs the problems of builders that belong to
the *other* branch. -/
theorem nonnumeric_branches_alias (t1 t2 : String)
    (h1 : pyStartsWith t1 "3." = true)
    (h2 : pyStartsWith t2 "3." = true)
    (n1 : pyInt? (pySlice t1 2) = none)
    (n2 : pyInt? (pySlice t2 2) = none) :
    branch_eq t1 t2 = true ∧
    ∀ (workers : List Worker) (builders : List Builder) (builder : Builder)
      (p : Problem),
      builder ∈ builders → get_branch builder.tags = t2 →
      p ∈ builder.problems workers →
      p ∈ Branch.problems workers t1 builders := by
  have k1 : Branch.sort_key t1 = (2, 99) := by
    rw [Branch.sort_key, if_pos h1, n1]
  have k2 : Branch.sort_key t2 = (2, 99) := by
    rw [Branch.sort_key, if_pos h2, n2]
  constructor
  · rw [branch_eq, k1, k2]; decide
  · intro workers builders builder p hmem hbr hp
    induction builders with
    | nil => cases hmem
    | cons b bs ih =>
      rw [Branch.problems]
      rcases List.mem_cons.mp hmem with hb | hmem2
      · subst hb
        have heq : branch_eq (get_branch builder.tags) t1 = true := by
          rw [branch_eq, hbr, k2, k1]; decide
        rw [heq]
        exact List.mem_append_left _ (by simpa using hp)
      · exact List.mem_append_right _ (ih hmem2)

/-- A builder tagged with the non-numeric branch tag `3.y` and no builds. -/
def builderBy : Builder :=
  { builderid := 3, name := "by", tags := ["3.y"], builds := [] }

/-- Witness for `nonnumeric_branches_alias`: branch `3.x` compares equal to
branch `3.y` and absorbs the `NoBuilds` problem of the `3.y` builder. -/
theorem nonnumeric_branches_alias_witness :
    branch_eq "3.x" "3.y" = true ∧
    Problem.NoBuilds builderBy ∈ Branch.problems [] "3.x" [builderBy] :=
  ⟨(nonnumeric_branches_alias "3.x" "3.y" (by decide) (by decide) (by decide)
      (by decide)).1,
   (nonnumeric_branches_alias "3.x" "3.y" (by decide) (by decide) (by decide)
      (by decide)).2 [] [builderBy] builderBy (Problem.NoBuilds builderBy)
      (by decide) (by decide) (by decide)⟩

/-! ### C2 — disconnection severity and the recency adjustment -/

/-- Every base severity of `BuilderDisconnected`
(`disconnected_unstable_builder`, `disconnected_stable_builder`,
`disconnected_blocking_builder`) lies strictly below `CONCERNING`, so the
demotion branches comparing against `CONCERNING`/`BLOCKING` can never fire. -/
theorem disconnectedBase_fst_lt (builder : Builder) :
    (disconnectedBase builder).1 < Severity.CONCERNING := by
  rw [disconnectedBase]
  split
  · decide
  · dsimp only
    split
    · exact (by decide :
        Severity.disconnected_blocking_builder < Severity.CONCERNING)
    · exact (by decide :
        Severity.disconnected_stable_builder < Severity.CONCERNING)

/-- A disconnected stable release-blocking builder whose most recent
interesting build started 1000 seconds ago. -/
def builderDiscRecent : Builder :=
  { builderid := 9, name := "disc", tags := ["3.x", "tier-1", "stable"],
    builds := [buildS] }

/-- C2 counterexample: with a recent build the description does gain the
`(with recent build)` suffix, but the severity is *not* demoted — it stays
at the base `disconnected_blocking_builder` band. -/
theorem disconnected_severity_not_demoted :
    builderDiscRecent.has_recent_build 1090 = true ∧
    (BuilderDisconnected.get_severity_and_description builderDiscRecent
        1090).1 = Severity.disconnected_blocking_builder ∧
    (disconnectedBase builderDiscRecent).1 =
      Severity.disconnected_blocking_builder ∧
    ¬ (BuilderDisconnected.get_severity_and_description builderDiscRecent
        1090).1 < (disconnectedBase builderDiscRecent).1 ∧
    (BuilderDisconnected.get_severity_and_description builderDiscRecent
        1090).2 =
      "Disconnected Tier-1 stable builder (with recent build)" := by decide

/-- C2 amended: the severity of `BuilderDisconnected` always equals its base
severity — the demotion `if`s compare against `BLOCKING`/`CONCERNING`, which
no disconnection base severity reaches — while the description gains the
`(with recent build)` suffix exactly when the most recent interesting build
has a truthy age under 6 hours. -/
theorem disconnected_severity_characterization (builder : Builder)
    (now : Int) :
    BuilderDisconnected.get_severity_and_description builder now =
      ((disconnectedBase builder).1,
        if builder.has_recent_build now then
          (disconnectedBase builder).2 ++ " (with recent build)"
        else (disconnectedBase builder).2) := by
  have hlt : (disconnectedBase builder).1 < Severity.CONCERNING :=
    disconnectedBase_fst_lt builder
  have hnb : ¬ Severity.BLOCKING ≤ (disconnectedBase builder).1 := by
    intro h
    exact absurd (lt_of_le_of_lt h hlt) (by decide)
  have hnc : ¬ Severity.CONCERNING ≤ (disconnectedBase builder).1 :=
    fun h => absurd (lt_of_le_of_lt h hlt) (lt_irrefl _)
  rw [BuilderDisconnected.get_severity_and_description,
    Builder.has_recent_build]
  rcases h : builder.iter_interesting_builds with _ | ⟨b, tl⟩
  · simp
  · dsimp only
    by_cases hr : b.age_recent now = true
    · rw [hr, if_neg hnb, if_neg hnc]
      simp
    · rw [Bool.not_eq_true] at hr
      rw [hr]
      simp

/-! ### C6 — the result-cache hit and recompute paths -/

/-- C6: a request with an unexpired cache entry and no refresh flag is served
the stored context verbatim with the slot untouched and no recomputation;
on an empty slot, a forced refresh, or an expired deadline, a successful
recomputation is returned and stored with deadline `now + CACHE_DURATION`. -/
theorem cache_hit_and_recompute (ε α : Type) (cache : Option (α × Int))
    (param : String) (now : Int) (compute : Except ε α) :
    (∀ (r : α) (d : Int), cache = some (r, d) →
      parse_force_refresh param = false → now ≤ d →
      ReleaseStatusApp.main cache param now compute =
        MainResult.cached r cache) ∧
    (∀ (v : α), compute = Except.ok v →
      (cache = none ∨ parse_force_refresh param = true ∨
        (∃ (r : α) (d : Int), cache = some (r, d) ∧ ¬ now ≤ d)) →
      ReleaseStatusApp.main cache param now compute =
        MainResult.computed v (some (v, now + CACHE_DURATION))) := by
  constructor
  · rintro r d rfl hforce hle
    simp [ReleaseStatusApp.main, hforce, hle]
  · rintro v rfl hmiss
    rcases hmiss with rfl | hforce | ⟨r, d, rfl, hgt⟩
    · simp [ReleaseStatusApp.main]
    · rcases cache with _ | ⟨r, d⟩ <;>
        simp [ReleaseStatusApp.main, hforce]
    · cases hf : parse_force_refresh param <;>
        simp [ReleaseStatusApp.main, hf, hgt]

/-- Witness for `cache_hit_and_recompute`: a hit at `now = 7 ≤ deadline = 10`
serves the cached value 5; an expired entry at `now = 20` recomputes and
stores deadline `20 + 360`. -/
theorem cache_hit_and_recompute_witness :
    ReleaseStatusApp.main (some ((5 : Nat), (10 : Int))) "" 7
        (Except.ok 9 : Except Unit Nat) =
      MainResult.cached 5 (some (5, 10)) ∧
    ReleaseStatusApp.main (some ((5 : Nat), (10 : Int))) "" 20
        (Except.ok 9 : Except Unit Nat) =
      MainResult.computed 9 (some (9, 20 + CACHE_DURATION)) :=
  ⟨(cache_hit_and_recompute Unit Nat (some (5, 10)) "" 7 (Except.ok 9)).1
      5 10 rfl (by decide) (by decide),
   (cache_hit_and_recompute Unit Nat (some (5, 10)) "" 20 (Except.ok 9)).2
      9 rfl (Or.inr (Or.inr ⟨5, 10, rfl, by decide⟩))⟩

/-! ### C7 — a failed recomputation leaves the slot untouched -/

/-- C7: when the recomputation raises, the request either serves the cache
hit or propagates the failure; in every case the cache slot afterwards is
exactly what it was before, and no `computed` entry is ever produced. -/
theorem failed_refresh_preserves_cache (ε α : Type) (cache : Option (α × Int))
    (param : String) (now : Int) (e : ε) :
    (ReleaseStatusApp.main cache param now (Except.error e)).cacheOut =
      cache ∧
    ∀ (r : α) (c : Option (α × Int)),
      ReleaseStatusApp.main cache param now (Except.error e) ≠
        MainResult.computed r c := by
  rcases cache with _ | ⟨r0, d0⟩
  · simp [ReleaseStatusApp.main, MainResult.cacheOut]
  · cases hf : parse_force_refresh param
    · constructor
      · by_cases hle : now ≤ d0 <;>
          simp [ReleaseStatusApp.main, MainResult.cacheOut, hf, hle]
      · intro r c
        by_cases hle : now ≤ d0 <;>
          simp [ReleaseStatusApp.main, hf, hle]
    · simp [ReleaseStatusApp.main, MainResult.cacheOut, hf]

/-- Witness for `failed_refresh_preserves_cache`: a failed refresh on an
expired entry leaves the stale entry in place. -/
theorem failed_refresh_witness :
    (ReleaseStatusApp.main (some ((3 : Nat), (5 : Int))) "" 9
        (Except.error () : Except Unit Nat)).cacheOut = some (3, 5) :=
  (failed_refresh_preserves_cache Unit Nat (some (3, 5)) "" 9 ()).1
